import Mathlib

/-
Verification of the delta-neutral execution and risk-control core of the
funding-rate-arbitrage bot.

The Python source is shallowly embedded over exact rational arithmetic:
python Decimal values become heavy Rat values.  Decimal context rounding
(28 significant digits) is abstracted away; every other operation
(comparison, min, max, abs, truncating floor-division) is translated
exactly.  Python Decimal floor-division truncates the true quotient
toward zero, which is what decTrunc below implements.

Stateful and async code is embedded by explicit state passing: the
position registry (a python dict) becomes an association list, and the
observable outcome of an awaited gather of the two order-placement
coroutines becomes an explicit parameter (a timeout flag plus one
Except-valued outcome per leg).
-/

/-- Side of an order, from bot/models.py (OrderSide). -/
inductive OrderSide
  | buy
  | sell
  deriving DecidableEq

/-- Type of an order, from bot/models.py (OrderType). -/
inductive OrderType
  | market
  | limit
  deriving DecidableEq

/-- Direction of a position, from bot/models.py (PositionSide). -/
inductive PositionSide
  | long
  | short
  deriving DecidableEq

/-- Request to place an order, from bot/models.py (OrderRequest). -/
structure OrderRequest where
  symbol : String
  side : OrderSide
  order_type : OrderType
  quantity : ℚ
  price : Option ℚ := none
  category : String := "linear"
  deriving DecidableEq

/-- Result of an executed order, from bot/models.py (OrderResult). -/
structure OrderResult where
  order_id : String
  symbol : String
  side : OrderSide
  filled_qty : ℚ
  filled_price : ℚ
  fee : ℚ
  timestamp : ℚ
  is_simulated : Bool := false
  deriving DecidableEq

/-- A delta-neutral position (spot plus perp pair), from bot/models.py (Position). -/
structure Position where
  id : String
  spot_symbol : String
  perp_symbol : String
  side : PositionSide
  quantity : ℚ
  spot_entry_price : ℚ
  perp_entry_price : ℚ
  spot_order_id : String
  perp_order_id : String
  opened_at : ℚ
  entry_fee_total : ℚ
  deriving DecidableEq

/-- Delta neutrality check result, from bot/models.py (DeltaStatus). -/
structure DeltaStatus where
  position_id : String
  spot_qty : ℚ
  perp_qty : ℚ
  drift_pct : ℚ
  is_within_tolerance : Bool
  checked_at : ℚ
  deriving DecidableEq

/-- Trading constraints for an exchange instrument, from bot/exchange/types.py
(InstrumentInfo). -/
structure InstrumentInfo where
  symbol : String
  min_qty : ℚ
  max_qty : ℚ
  qty_step : ℚ
  min_notional : ℚ := 0
  tick_size : ℚ := 1/100
  deriving DecidableEq

/-- Integer part of a rational, truncated toward zero.  This is the quotient
python Decimal floor-division produces: the docs state the integer division
operator returns the integer part of the true quotient, truncating towards
zero. -/
def decTrunc (x : ℚ) : ℤ := if 0 ≤ x then ⌊x⌋ else ⌈x⌉

/-- Round a value down to the nearest step increment, from
bot/exchange/types.py (round_to_step): (value // step) * step in Decimal
arithmetic. -/
def round_to_step (value step : ℚ) : ℚ := (decTrunc (value / step) : ℚ) * step

/-- Trading strategy parameters, from bot/config.py (TradingSettings).
Fields not consumed by the execution core (mode, strategy_mode,
min_funding_rate, scan_interval) are omitted. -/
structure TradingSettings where
  max_position_size_usd : ℚ
  delta_drift_tolerance : ℚ
  order_timeout_seconds : ℚ
  deriving DecidableEq

/-- Default TradingSettings values from bot/config.py: 1000 USD cap,
0.02 drift tolerance, 5 second order timeout. -/
def defaultTradingSettings : TradingSettings :=
  { max_position_size_usd := 1000
    delta_drift_tolerance := 2/100
    order_timeout_seconds := 5 }

/-- Risk management parameters, from bot/config.py (RiskSettings).
Only the fields consumed by RiskManager.check_can_open are modelled. -/
structure RiskSettings where
  max_position_size_per_pair : ℚ
  max_simultaneous_positions : ℕ
  deriving DecidableEq

/-- Default RiskSettings values from bot/config.py: 1000 USD per pair,
5 simultaneous positions. -/
def defaultRiskSettings : RiskSettings :=
  { max_position_size_per_pair := 1000
    max_simultaneous_positions := 5 }

/-- Maximum valid order quantity for a single instrument, from
bot/position/sizing.py (PositionSizer.calculate_quantity). -/
def calculate_quantity (s : TradingSettings) (price available_balance : ℚ)
    (instrument : InstrumentInfo) : Option ℚ :=
  let max_by_config := s.max_position_size_usd / price
  let max_by_balance := available_balance / price
  let raw_qty := min max_by_config max_by_balance
  let rounded_qty := round_to_step raw_qty instrument.qty_step
  if rounded_qty < instrument.min_qty then none
  else
    let notional := rounded_qty * price
    if notional < instrument.min_notional then none
    else some rounded_qty

/-- Single quantity valid for both spot and perp legs, from
bot/position/sizing.py (PositionSizer.calculate_matching_quantity). -/
def calculate_matching_quantity (s : TradingSettings) (price available_balance : ℚ)
    (spot_instrument perp_instrument : InstrumentInfo) : Option ℚ :=
  let coarser_step := max spot_instrument.qty_step perp_instrument.qty_step
  let higher_min_qty := max spot_instrument.min_qty perp_instrument.min_qty
  let higher_min_notional := max spot_instrument.min_notional perp_instrument.min_notional
  let max_by_config := s.max_position_size_usd / price
  let max_by_balance := available_balance / price
  let raw_qty := min max_by_config max_by_balance
  let rounded_qty := round_to_step raw_qty coarser_step
  if rounded_qty < higher_min_qty then none
  else
    let notional := rounded_qty * price
    if notional < higher_min_notional then none
    else some rounded_qty

/-- Delta-drift check, from bot/position/delta_validator.py
(DeltaValidator.validate).  The wall-clock timestamp time.time() is passed
in as the parameter now. -/
def validate (s : TradingSettings) (spot_qty perp_qty : ℚ)
    (position_id : String) (now : ℚ) : DeltaStatus :=
  let max_qty := max spot_qty perp_qty
  let drift_pct := if 0 < max_qty then |spot_qty - perp_qty| / max_qty else 0
  let is_within_tolerance := decide (drift_pct ≤ s.delta_drift_tolerance)
  { position_id := position_id
    spot_qty := spot_qty
    perp_qty := perp_qty
    drift_pct := drift_pct
    is_within_tolerance := is_within_tolerance
    checked_at := now }

/-- Pre-trade admission check, from bot/risk/manager.py
(RiskManager.check_can_open).  The interpolated settings values of the
python f-string reasons are abstracted to the fixed message text. -/
def check_can_open (s : RiskSettings) (symbol : String) (position_size_usd : ℚ)
    (current_positions : List Position) : Bool × String :=
  if position_size_usd ≤ 0 then
    (false, "Position size must be positive")
  else if s.max_position_size_per_pair < position_size_usd then
    (false, "Exceeds max per-pair size")
  else if s.max_simultaneous_positions ≤ current_positions.length then
    (false, "At max positions")
  else if symbol ∈ current_positions.map (fun p => p.perp_symbol) then
    (false, "Already have position in " ++ symbol)
  else
    (true, "")

/-- Lookup in an insertion-ordered association list, modelling read access
to the python dict self._positions. -/
def dictGet {α : Type} : List (String × α) → String → Option α
  | [], _ => none
  | (k, v) :: rest, key => if k = key then some v else dictGet rest key

/-- Update of an insertion-ordered association list, modelling python dict
assignment: replace the entry in place when the key exists, append it
otherwise. -/
def dictSet {α : Type} : List (String × α) → String → α → List (String × α)
  | [], key, v => [(key, v)]
  | (k, w) :: rest, key, v =>
    if k = key then (key, v) :: rest else (k, w) :: dictSet rest key v

/-- Deletion from an association list, modelling the removal half of python
dict pop. -/
def dictRemove {α : Type} : List (String × α) → String → List (String × α)
  | [], _ => []
  | (k, v) :: rest, key =>
    if k = key then dictRemove rest key else (k, v) :: dictRemove rest key

/-- Observable outcome of awaiting asyncio.gather over the two order
coroutines: both fills when both succeed, otherwise the first raised
exception propagates (which exception wins when both legs raise is
timing-dependent in python; the spot leg is taken first here). -/
def gatherTwo (a b : Except String OrderResult) :
    Except String (OrderResult × OrderResult) :=
  match a, b with
  | .ok x, .ok y => .ok (x, y)
  | .error e, _ => .error e
  | .ok _, .error e => .error e

/-- Error taxonomy raised by PositionManager.open_position, from
bot/exceptions.py. -/
inductive OpenError
  | priceUnavailable
  | insufficientSize
  | deltaHedgeTimeout
  | deltaHedgeError (msg : String)
  | deltaDriftExceeded
  deriving DecidableEq

/-- Observable effects of one PositionManager.open_position call: the order
requests submitted to the executor in submission order, the returned
position or raised error, and the registry afterwards. -/
structure OpenOutcome where
  placed : List OrderRequest
  result : Except OpenError Position
  registry : List (String × Position)

/-- One call of PositionManager.open_position, from bot/position/manager.py.
The ticker lookups, the executor behaviour, the generated uuid and the
wall clock are passed in as parameters (perpPrice, spotPrice, timedOut,
spotOutcome, perpOutcome, newId, now).  timedOut models
asyncio.wait_for raising TimeoutError; otherwise the gather outcome is
gatherTwo spotOutcome perpOutcome. -/
def openPosition (s : TradingSettings) (spot_symbol perp_symbol : String)
    (available_balance : ℚ)
    (spot_instrument perp_instrument : InstrumentInfo)
    (perpPrice spotPrice : Option ℚ)
    (timedOut : Bool)
    (spotOutcome perpOutcome : Except String OrderResult)
    (newId : String) (now : ℚ)
    (registry : List (String × Position)) : OpenOutcome :=
  match (match perpPrice with | some p => some p | none => spotPrice) with
  | none => { placed := [], result := .error .priceUnavailable, registry := registry }
  | some price =>
    match calculate_matching_quantity s price available_balance
        spot_instrument perp_instrument with
    | none => { placed := [], result := .error .insufficientSize, registry := registry }
    | some quantity =>
      let spot_order : OrderRequest :=
        { symbol := spot_symbol, side := .buy, order_type := .market
          quantity := quantity, price := none, category := "spot" }
      let perp_order : OrderRequest :=
        { symbol := perp_symbol, side := .sell, order_type := .market
          quantity := quantity, price := none, category := "linear" }
      if timedOut then
        { placed := [spot_order, perp_order]
          result := .error .deltaHedgeTimeout, registry := registry }
      else
        match gatherTwo spotOutcome perpOutcome with
        | .error exc =>
          -- In the python, the tuple assignment from await wait_for(gather(..))
          -- raised instead of assigning, so the locals spot_result and
          -- perp_result still hold the None they were initialised with when
          -- the except-handler runs.
          let spot_result : Option OrderResult := none
          let perp_result : Option OrderResult := none
          let rollback_orders : List OrderRequest :=
            match spot_result, perp_result with
            | some r, none =>
              [{ symbol := spot_symbol, side := .sell, order_type := .market
                 quantity := r.filled_qty, price := none, category := "spot" }]
            | none, some r =>
              [{ symbol := perp_symbol, side := .buy, order_type := .market
                 quantity := r.filled_qty, price := none, category := "linear" }]
            | _, _ => []
          { placed := [spot_order, perp_order] ++ rollback_orders
            result := .error (.deltaHedgeError exc), registry := registry }
        | .ok (spot_result, perp_result) =>
          let delta_status :=
            validate s spot_result.filled_qty perp_result.filled_qty "" now
          if delta_status.is_within_tolerance = false then
            -- emergency close of both legs at the actually filled quantities
            let spot_close : OrderRequest :=
              { symbol := spot_symbol, side := .sell, order_type := .market
                quantity := spot_result.filled_qty, price := none, category := "spot" }
            let perp_close : OrderRequest :=
              { symbol := perp_symbol, side := .buy, order_type := .market
                quantity := perp_result.filled_qty, price := none, category := "linear" }
            { placed := [spot_order, perp_order, spot_close, perp_close]
              result := .error .deltaDriftExceeded, registry := registry }
          else
            let entry_fee := spot_result.fee + perp_result.fee
            let position : Position :=
              { id := newId
                spot_symbol := spot_symbol
                perp_symbol := perp_symbol
                side := .short
                quantity := spot_result.filled_qty
                spot_entry_price := spot_result.filled_price
                perp_entry_price := perp_result.filled_price
                spot_order_id := spot_result.order_id
                perp_order_id := perp_result.order_id
                opened_at := now
                entry_fee_total := entry_fee }
            { placed := [spot_order, perp_order]
              result := .ok position
              registry := dictSet registry newId position }

/-- Error taxonomy raised by PositionManager.close_position: the KeyError
of dict pop, DeltaHedgeTimeout, or an uncaught exception from one of the
closing order coroutines. -/
inductive CloseError
  | keyError
  | deltaHedgeTimeout
  | legFailure (msg : String)
  deriving DecidableEq

/-- Observable effects of one PositionManager.close_position call. -/
structure CloseOutcome where
  placed : List OrderRequest
  result : Except CloseError (OrderResult × OrderResult)
  registry : List (String × Position)

/-- One call of PositionManager.close_position, from
bot/position/manager.py.  The position is popped first (raising KeyError
when absent), the two reversing orders run under one shared timeout, and
only on timeout is the position written back. -/
def closePosition (registry : List (String × Position)) (position_id : String)
    (timedOut : Bool)
    (spotOutcome perpOutcome : Except String OrderResult) : CloseOutcome :=
  match dictGet registry position_id with
  | none => { placed := [], result := .error .keyError, registry := registry }
  | some position =>
    let registry1 := dictRemove registry position_id
    let spot_order : OrderRequest :=
      { symbol := position.spot_symbol, side := .sell, order_type := .market
        quantity := position.quantity, price := none, category := "spot" }
    let perp_order : OrderRequest :=
      { symbol := position.perp_symbol, side := .buy, order_type := .market
        quantity := position.quantity, price := none, category := "linear" }
    if timedOut then
      { placed := [spot_order, perp_order]
        result := .error .deltaHedgeTimeout
        registry := dictSet registry1 position_id position }
    else
      match gatherTwo spotOutcome perpOutcome with
      | .error e =>
        { placed := [spot_order, perp_order]
          result := .error (.legFailure e), registry := registry1 }
      | .ok (sr, pr) =>
        { placed := [spot_order, perp_order]
          result := .ok (sr, pr), registry := registry1 }

/-- Events observable from one EmergencyController.trigger call: one event
per close_position attempt of a position, and one event per invocation of
the shutdown callback.  Within trigger the close tasks run concurrently
via asyncio.gather; their attempts are listed here grouped per position,
which is sound for the properties stated below (counts, and the shutdown
callback firing only after every task has settled). -/
inductive EmEvent
  | closeAttempt (position_id : String) (attempt : ℕ)
  | shutdown
  deriving DecidableEq

/-- First attempt index (0-based, as in range(max_retries)) at which the
close of a position succeeds, none when every attempt fails, from the
retry loop of EmergencyController._close_with_retry in
bot/risk/emergency.py.  attemptOk says whether a given attempt's
close_position call succeeds. -/
def firstSuccess (max_retries : ℕ) (attemptOk : ℕ → Bool) : Option ℕ :=
  (List.range max_retries).find? attemptOk

/-- Number of close_position calls _close_with_retry makes: up to and
including the first successful attempt, or all max_retries attempts when
none succeeds. -/
def attemptsMade (max_retries : ℕ) (attemptOk : ℕ → Bool) : ℕ :=
  match firstSuccess max_retries attemptOk with
  | some k => k + 1
  | none => max_retries

/-- Close-attempt events of one position's _close_with_retry task. -/
def attemptEvents (max_retries : ℕ) (attemptOk : ℕ → Bool)
    (position_id : String) : List EmEvent :=
  (List.range (attemptsMade max_retries attemptOk)).map
    (fun n => EmEvent.closeAttempt position_id n)

/-- Observable outcome of one EmergencyController.trigger call: the two
returned id lists, the event trace, and the triggered flag afterwards. -/
structure TriggerOutcome where
  closedIds : List String
  failedIds : List String
  events : List EmEvent
  triggered : Bool
  deriving DecidableEq

/-- One call of EmergencyController.trigger, from bot/risk/emergency.py.
triggered is the controller's flag before the call; positions is the
snapshot returned by the position manager; attemptOk gives each
position's per-attempt close outcome (the P&L recording on success is
not observable in the claims and is omitted). -/
def trigger (triggered : Bool) (max_retries : ℕ) (positions : List Position)
    (attemptOk : String → ℕ → Bool) : TriggerOutcome :=
  if triggered then
    { closedIds := [], failedIds := [], events := [], triggered := triggered }
  else if positions = [] then
    { closedIds := [], failedIds := []
      events := [EmEvent.shutdown], triggered := true }
  else
    let results := positions.map (fun p => (p, firstSuccess max_retries (attemptOk p.id)))
    let closedIds := (results.filter (fun r => r.2.isSome)).map (fun r => r.1.id)
    let failedIds := (results.filter (fun r => r.2.isSome = false)).map (fun r => r.1.id)
    let events :=
      (positions.map (fun p => attemptEvents max_retries (attemptOk p.id) p.id)).flatten
        ++ [EmEvent.shutdown]
    { closedIds := closedIds, failedIds := failedIds
      events := events, triggered := true }

/-- Spot instrument constraints used for concrete instances, mirroring the
spot_instrument fixture of tests/test_position/test_manager.py. -/
def sampleSpotInstrument : InstrumentInfo :=
  { symbol := "BTC/USDT", min_qty := 1/1000, max_qty := 100
    qty_step := 1/1000, min_notional := 10, tick_size := 1/100 }

/-- Perp instrument constraints used for concrete instances, mirroring the
perp_instrument fixture of tests/test_position/test_manager.py. -/
def samplePerpInstrument : InstrumentInfo :=
  { symbol := "BTC/USDT:USDT", min_qty := 1/1000, max_qty := 100
    qty_step := 1/1000, min_notional := 10, tick_size := 1/100 }

/-- Spot instrument with quantity step 0.2, for exercising
calculate_matching_quantity on steps that do not divide each other. -/
def fifthStepInstrument : InstrumentInfo :=
  { symbol := "S/USDT", min_qty := 1/10, max_qty := 100
    qty_step := 1/5, min_notional := 0, tick_size := 1/100 }

/-- Perp instrument with quantity step 0.3, for exercising
calculate_matching_quantity on steps that do not divide each other. -/
def threeTenthsStepInstrument : InstrumentInfo :=
  { symbol := "S/USDT:USDT", min_qty := 1/10, max_qty := 100
    qty_step := 3/10, min_notional := 0, tick_size := 1/100 }

/-- Instrument with quantity step 1 and zero minimums, for exercising
calculate_quantity on a negative balance. -/
def unitStepInstrument : InstrumentInfo :=
  { symbol := "U/USDT", min_qty := 0, max_qty := 100
    qty_step := 1, min_notional := 0, tick_size := 1/100 }

/-- A fully filled spot buy of 0.02 BTC at 50000. -/
def sampleSpotFill : OrderResult :=
  { order_id := "spot-1", symbol := "BTC/USDT", side := .buy
    filled_qty := 1/50, filled_price := 50000, fee := 1
    timestamp := 0, is_simulated := true }

/-- A fully filled perp sell of 0.02 BTC at 50000. -/
def samplePerpFill : OrderResult :=
  { order_id := "perp-1", symbol := "BTC/USDT:USDT", side := .sell
    filled_qty := 1/50, filled_price := 50000, fee := 1
    timestamp := 0, is_simulated := true }

/-- A spot buy that reported a fill quantity of zero. -/
def zeroSpotFill : OrderResult :=
  { order_id := "spot-0", symbol := "BTC/USDT", side := .buy
    filled_qty := 0, filled_price := 50000, fee := 0
    timestamp := 0, is_simulated := true }

/-- A perp sell that reported a fill quantity of zero. -/
def zeroPerpFill : OrderResult :=
  { order_id := "perp-0", symbol := "BTC/USDT:USDT", side := .sell
    filled_qty := 0, filled_price := 50000, fee := 0
    timestamp := 0, is_simulated := true }

/-- A registered position used in concrete registry instances. -/
def samplePosition : Position :=
  { id := "pos-1", spot_symbol := "BTC/USDT", perp_symbol := "BTC/USDT:USDT"
    side := .short, quantity := 1/50, spot_entry_price := 50000
    perp_entry_price := 50000, spot_order_id := "spot-1"
    perp_order_id := "perp-1", opened_at := 0, entry_fee_total := 2 }

/-- Close-attempt oracle that fails attempts 0 and 1 and succeeds on
attempt 2 for every position. -/
def thirdAttemptOk : String → ℕ → Bool := fun _ n => n == 2

/-- Property of being an integer multiple of a step size. -/
def isMultipleOf (q step : ℚ) : Prop := ∃ n : ℤ, q = n * step

theorem round_to_step_le (v step : ℚ) (hv : 0 ≤ v) (hs : 0 < step) :
    round_to_step v step ≤ v := by
  unfold round_to_step decTrunc
  have h0 : 0 ≤ v / step := div_nonneg hv hs.le
  rw [if_pos h0]
  calc ((⌊v / step⌋ : ℚ) * step) ≤ (v / step) * step :=
        mul_le_mul_of_nonneg_right (Int.floor_le _) hs.le
    _ = v := div_mul_cancel₀ v hs.ne'

theorem dictGet_dictSet {α : Type} (d : List (String × α)) (k : String) (v : α) :
    dictGet (dictSet d k v) k = some v := by
  induction d with
  | nil => simp [dictSet, dictGet]
  | cons hd tl ih =>
    obtain ⟨k1, w⟩ := hd
    by_cases h : k1 = k
    · simp [dictSet, dictGet, h]
    · simp [dictSet, dictGet, h, ih]

theorem dictGet_dictRemove {α : Type} (d : List (String × α)) (k : String) :
    dictGet (dictRemove d k) k = none := by
  induction d with
  | nil => simp [dictRemove, dictGet]
  | cons hd tl ih =>
    obtain ⟨k1, w⟩ := hd
    by_cases h : k1 = k
    · simp [dictRemove, dictGet, h, ih]
    · simp [dictRemove, dictGet, h, ih]

/-- C6: the delta check computes drift as the absolute quantity difference
divided by the larger quantity, zero when both quantities are zero, and
passes exactly when drift is at most the tolerance (inclusive); equal
quantities give drift zero and pass for any non-negative tolerance; a
positive quantity against zero gives drift one and fails for any
tolerance below one; with the default tolerance 0.02, quantities 1.00
against 0.98 pass with drift exactly 0.02 and 1.00 against 0.97 fail
with drift 0.03. -/
theorem C6_delta_check (s : TradingSettings) (sq pq a : ℚ) :
    (0 ≤ sq → 0 ≤ pq → ¬(sq = 0 ∧ pq = 0) →
      (validate s sq pq "" 0).drift_pct = |sq - pq| / max sq pq)
    ∧ (validate s 0 0 "" 0).drift_pct = 0
    ∧ ((validate s sq pq "" 0).is_within_tolerance = true ↔
        (validate s sq pq "" 0).drift_pct ≤ s.delta_drift_tolerance)
    ∧ (validate s a a "" 0).drift_pct = 0
    ∧ (0 ≤ s.delta_drift_tolerance → (validate s a a "" 0).is_within_tolerance = true)
    ∧ (0 < a → (validate s a 0 "" 0).drift_pct = 1)
    ∧ (0 < a → s.delta_drift_tolerance < 1 →
        (validate s a 0 "" 0).is_within_tolerance = false)
    ∧ (validate defaultTradingSettings 1 (98/100) "" 0).is_within_tolerance = true
    ∧ (validate defaultTradingSettings 1 (98/100) "" 0).drift_pct = 2/100
    ∧ (validate defaultTradingSettings 1 (97/100) "" 0).is_within_tolerance = false
    ∧ (validate defaultTradingSettings 1 (97/100) "" 0).drift_pct = 3/100 := by
  refine ⟨?_, ?_, ?_, ?_, ?_, ?_, ?_, ?_, ?_, ?_, ?_⟩
  · intro hsq hpq hnz
    have hpos : 0 < max sq pq := by
      rcases not_and_or.mp hnz with h | h
      · exact lt_max_of_lt_left (lt_of_le_of_ne hsq (Ne.symm h))
      · exact lt_max_of_lt_right (lt_of_le_of_ne hpq (Ne.symm h))
    simp only [validate]
    rw [if_pos hpos]
  · simp [validate]
  · simp [validate]
  · by_cases h : 0 < a <;> simp [validate, h]
  · intro h
    by_cases ha : 0 < a <;> simp [validate, ha, h]
  · intro h
    simp [validate, max_eq_left h.le, if_pos h, abs_of_nonneg h.le, div_self h.ne']
  · intro h htol
    simp [validate, max_eq_left h.le, if_pos h, abs_of_nonneg h.le, div_self h.ne']
    linarith
  · norm_num [validate, defaultTradingSettings, max_def, abs_of_nonneg]
  · norm_num [validate, defaultTradingSettings, max_def, abs_of_nonneg]
  · norm_num [validate, defaultTradingSettings, max_def, abs_of_nonneg]
  · norm_num [validate, defaultTradingSettings, max_def, abs_of_nonneg]

theorem C6_witness :
    (validate defaultTradingSettings 1 (98/100) "" 0).drift_pct =
      |1 - 98/100| / max 1 (98/100)
    ∧ (validate defaultTradingSettings 3 3 "" 0).is_within_tolerance = true
    ∧ (validate defaultTradingSettings 3 0 "" 0).is_within_tolerance = false := by
  obtain ⟨h1, _, _, _, h5, _, h7, _, _, _, _⟩ :=
    C6_delta_check defaultTradingSettings 1 (98/100) 3
  exact ⟨h1 (by norm_num) (by norm_num) (by norm_num),
    h5 (by norm_num [defaultTradingSettings]),
    h7 (by norm_num) (by norm_num [defaultTradingSettings])⟩

/-- C7: calling trigger while the controller is already triggered is a
no-op for every registry snapshot: it returns two empty lists, performs
no close attempt, and does not invoke the shutdown callback. -/
theorem C7_retrigger_noop (max_retries : ℕ) (positions : List Position)
    (attemptOk : String → ℕ → Bool) :
    trigger true max_retries positions attemptOk =
      { closedIds := [], failedIds := [], events := [], triggered := true } := rfl

/-- C9: check_can_open denies exactly when the size is non-positive, the
size exceeds the per-pair cap, the open-position count has reached the
concurrency cap, or the perp symbol is already open, returning the first
failing check's reason in that fixed order, and otherwise allows with an
empty reason; a size equal to the cap passes the size check and a
duplicate symbol is denied even when every numeric check passes. -/
theorem C9_check_can_open (s : RiskSettings) (symbol : String) (size : ℚ)
    (ps : List Position) :
    ((check_can_open s symbol size ps).1 = true ↔
      (0 < size ∧ size ≤ s.max_position_size_per_pair
        ∧ ps.length < s.max_simultaneous_positions
        ∧ symbol ∉ ps.map (fun p => p.perp_symbol)))
    ∧ ((check_can_open s symbol size ps).1 = true →
        (check_can_open s symbol size ps).2 = "")
    ∧ (size ≤ 0 →
        check_can_open s symbol size ps = (false, "Position size must be positive"))
    ∧ (0 < size → s.max_position_size_per_pair < size →
        check_can_open s symbol size ps = (false, "Exceeds max per-pair size"))
    ∧ (0 < size → size ≤ s.max_position_size_per_pair →
        s.max_simultaneous_positions ≤ ps.length →
        check_can_open s symbol size ps = (false, "At max positions"))
    ∧ (0 < size → size ≤ s.max_position_size_per_pair →
        ps.length < s.max_simultaneous_positions →
        symbol ∈ ps.map (fun p => p.perp_symbol) →
        check_can_open s symbol size ps =
          (false, "Already have position in " ++ symbol)) := by
  unfold check_can_open
  split_ifs with h1 h2 h3 h4 <;>
    refine ⟨?_, ?_, ?_, ?_, ?_, ?_⟩ <;>
      simp_all

theorem C9_witness :
    (check_can_open defaultRiskSettings "BTC/USDT:USDT" 1000 []).1 = true
    ∧ (check_can_open defaultRiskSettings "BTC/USDT:USDT" 1000
        [samplePosition]).1 = false := by
  obtain ⟨h1, _, _, _, _, _⟩ :=
    C9_check_can_open defaultRiskSettings "BTC/USDT:USDT" 1000 []
  obtain ⟨g1, _, _, _, _, g6⟩ :=
    C9_check_can_open defaultRiskSettings "BTC/USDT:USDT" 1000 [samplePosition]
  refine ⟨h1.mpr ⟨by norm_num, by norm_num [defaultRiskSettings],
    by simp [defaultRiskSettings], by simp⟩, ?_⟩
  have := g6 (by norm_num) (by norm_num [defaultRiskSettings])
    (by simp [defaultRiskSettings]) (by simp [samplePosition])
  rw [this]

/-- C5 counterexample: at price 1 and step 1 (both positive) with balance
-0.5, the sizer returns quantity 0 whose notional 0 exceeds
min(configured cap, balance) = -0.5, because Decimal floor-division
truncates the negative raw quantity toward zero, rounding it up. -/
theorem C5_counterexample :
    calculate_quantity defaultTradingSettings 1 (-(1/2)) unitStepInstrument = some 0
    ∧ ¬((0 : ℚ) * 1 ≤ min defaultTradingSettings.max_position_size_usd (-(1/2)))
    ∧ -(1/2) < round_to_step (-(1/2)) 1 := by
  have hceil : ⌈(-(1/2) : ℚ)⌉ = 0 := by norm_num
  refine ⟨?_, ?_, ?_⟩
  · norm_num [calculate_quantity, round_to_step, decTrunc, defaultTradingSettings,
      unitStepInstrument, min_def, hceil]
  · norm_num [defaultTradingSettings, min_def]
  · norm_num [round_to_step, decTrunc, hceil]

/-- C5 amended: for every positive price and positive quantity step, and
whenever the raw budget min(configured cap, balance) is non-negative (in
particular for every non-negative balance under the default positive
cap), a returned quantity has notional at most min(cap, balance); and
truncation to the step never rounds a non-negative quantity up.  With a
negative budget, Decimal floor-division truncates toward zero, which
rounds up (C5_counterexample). -/
theorem C5_notional_bounded (s : TradingSettings) (price available_balance : ℚ)
    (instrument : InstrumentInfo) (q : ℚ)
    (hprice : 0 < price) (hstep : 0 < instrument.qty_step)
    (hmin : 0 ≤ min s.max_position_size_usd available_balance)
    (hq : calculate_quantity s price available_balance instrument = some q) :
    q * price ≤ min s.max_position_size_usd available_balance
    ∧ (∀ v step : ℚ, 0 ≤ v → 0 < step → round_to_step v step ≤ v) := by
  obtain ⟨hmax, hbal⟩ := le_min_iff.mp hmin
  refine ⟨?_, fun v step hv hs => round_to_step_le v step hv hs⟩
  simp only [calculate_quantity] at hq
  split at hq
  · exact absurd hq (by simp)
  · split at hq
    · exact absurd hq (by simp)
    · have hq' := Option.some.inj hq
      set raw := min (s.max_position_size_usd / price) (available_balance / price) with hraw
      have h0 : 0 ≤ raw :=
        le_min (div_nonneg hmax hprice.le) (div_nonneg hbal hprice.le)
      have hle : round_to_step raw instrument.qty_step ≤ raw :=
        round_to_step_le raw instrument.qty_step h0 hstep
      have hqle : q ≤ raw := hq' ▸ hle
      refine le_min ?_ ?_
      · have : q ≤ s.max_position_size_usd / price :=
          le_trans hqle (min_le_left _ _)
        exact (le_div_iff₀ hprice).mp this
      · have : q ≤ available_balance / price :=
          le_trans hqle (min_le_right _ _)
        exact (le_div_iff₀ hprice).mp this

theorem C5_witness :
    (1/50 : ℚ) * 50000 ≤ min defaultTradingSettings.max_position_size_usd 10000 := by
  have h := C5_notional_bounded defaultTradingSettings 50000 10000
    sampleSpotInstrument (1/50) (by norm_num)
    (by norm_num [sampleSpotInstrument])
    (by norm_num [defaultTradingSettings, min_def])
    (by norm_num [calculate_quantity, round_to_step, decTrunc,
      defaultTradingSettings, sampleSpotInstrument, min_def])
  exact h.1

/-- C2 counterexample: with spot step 0.2 and perp step 0.3 (both
positive), price 1 and balance 1, calculate_matching_quantity returns
0.9, which is not a multiple of the spot step 0.2, so the returned
quantity is not legal for both legs. -/
theorem C2_counterexample :
    calculate_matching_quantity defaultTradingSettings 1 1
      fifthStepInstrument threeTenthsStepInstrument = some (9/10)
    ∧ ¬ isMultipleOf (9/10) fifthStepInstrument.qty_step := by
  constructor
  · norm_num [calculate_matching_quantity, round_to_step, decTrunc,
      defaultTradingSettings, fifthStepInstrument, threeTenthsStepInstrument,
      min_def, max_def]
  · rintro ⟨n, hn⟩
    rw [show fifthStepInstrument.qty_step = 1/5 from rfl] at hn
    have h2 : ((2 * n : ℤ) : ℚ) = ((9 : ℤ) : ℚ) := by push_cast; linarith
    have := Int.cast_injective h2
    omega

/-- C2 amended: every quantity returned by calculate_matching_quantity is
an integer multiple of the coarser (larger) of the two quantity steps,
is at least both instruments' minimum quantities, and has notional at
least both instruments' minimum notionals; it is a multiple of both
steps whenever the finer step divides the coarser one (as with the
power-of-ten steps exchanges use), but not in general
(C2_counterexample). -/
theorem C2_matching_quantity (s : TradingSettings) (price available_balance : ℚ)
    (si pi : InstrumentInfo) (q : ℚ)
    (hq : calculate_matching_quantity s price available_balance si pi = some q) :
    isMultipleOf q (max si.qty_step pi.qty_step)
    ∧ ((∃ m : ℤ, max si.qty_step pi.qty_step = m * min si.qty_step pi.qty_step) →
        isMultipleOf q si.qty_step ∧ isMultipleOf q pi.qty_step)
    ∧ si.min_qty ≤ q ∧ pi.min_qty ≤ q
    ∧ si.min_notional ≤ q * price ∧ pi.min_notional ≤ q * price := by
  simp only [calculate_matching_quantity] at hq
  split at hq
  · exact absurd hq (by simp)
  · split at hq
    · exact absurd hq (by simp)
    · rename_i hminq hminn
      have hq' := Option.some.inj hq
      push_neg at hminq hminn
      have hmult : isMultipleOf q (max si.qty_step pi.qty_step) := by
        refine ⟨decTrunc (min (s.max_position_size_usd / price)
          (available_balance / price) / max si.qty_step pi.qty_step), ?_⟩
        rw [← hq']
        rfl
      refine ⟨hmult, ?_, ?_, ?_, ?_, ?_⟩
      · rintro ⟨m, hm⟩
        obtain ⟨n, hn⟩ := hmult
        rcases le_total si.qty_step pi.qty_step with h | h
        · rw [max_eq_right h] at hn
          rw [max_eq_right h, min_eq_left h] at hm
          exact ⟨⟨n * m, by rw [hn, hm]; push_cast; ring⟩, ⟨n, hn⟩⟩
        · rw [max_eq_left h] at hn
          rw [max_eq_left h, min_eq_right h] at hm
          exact ⟨⟨n, hn⟩, ⟨n * m, by rw [hn, hm]; push_cast; ring⟩⟩
      · exact le_trans (le_max_left _ _) (hq' ▸ hminq)
      · exact le_trans (le_max_right _ _) (hq' ▸ hminq)
      · exact le_trans (le_max_left _ _) (hq' ▸ hminn)
      · exact le_trans (le_max_right _ _) (hq' ▸ hminn)

theorem C2_witness :
    isMultipleOf (1/50 : ℚ) sampleSpotInstrument.qty_step
    ∧ isMultipleOf (1/50 : ℚ) samplePerpInstrument.qty_step
    ∧ sampleSpotInstrument.min_qty ≤ (1/50 : ℚ)
    ∧ sampleSpotInstrument.min_notional ≤ (1/50 : ℚ) * 50000 := by
  have h := C2_matching_quantity defaultTradingSettings 50000 10000
    sampleSpotInstrument samplePerpInstrument (1/50)
    (by norm_num [calculate_matching_quantity, round_to_step, decTrunc,
      defaultTradingSettings, sampleSpotInstrument, samplePerpInstrument,
      min_def, max_def])
  obtain ⟨-, hdiv, hmq, -, hmn, -⟩ := h
  obtain ⟨hs, hp⟩ := hdiv ⟨1, by norm_num [sampleSpotInstrument,
    samplePerpInstrument, min_def, max_def]⟩
  exact ⟨hs, hp, hmq, hmn⟩

theorem shutdown_count_attemptEvents (positions : List Position)
    (max_retries : ℕ) (attemptOk : String → ℕ → Bool) :
    ((positions.map
      (fun p => attemptEvents max_retries (attemptOk p.id) p.id)).flatten).count
      EmEvent.shutdown = 0 := by
  rw [List.count_eq_zero]
  intro h
  simp only [List.mem_flatten, List.mem_map, attemptEvents] at h
  obtain ⟨l, ⟨p, hp, hl⟩, hmem⟩ := h
  rw [← hl] at hmem
  simp at hmem

/-- C8: on a first trigger call the shutdown callback fires exactly once
and only after every per-position close task has settled, both when the
registry is empty and however many positions failed; and a position
whose close fails on attempts 1 and 2 but succeeds on attempt 3 under
max_retries 3 is reported in closedIds and not in failedIds. -/
theorem C8_first_trigger (max_retries : ℕ) (positions : List Position)
    (attemptOk : String → ℕ → Bool) :
    ((trigger false max_retries positions attemptOk).events.count EmEvent.shutdown = 1)
    ∧ ((trigger false max_retries positions attemptOk).events.getLast? =
        some EmEvent.shutdown)
    ∧ (∀ p ∈ positions, max_retries = 3 →
        attemptOk p.id 0 = false → attemptOk p.id 1 = false →
        attemptOk p.id 2 = true →
        p.id ∈ (trigger false max_retries positions attemptOk).closedIds
        ∧ p.id ∉ (trigger false max_retries positions attemptOk).failedIds) := by
  by_cases hp : positions = []
  · subst hp
    refine ⟨by simp [trigger], by simp [trigger], ?_⟩
    intro p hmem
    simp at hmem
  · have htr : trigger false max_retries positions attemptOk =
        { closedIds := ((positions.map
            (fun p => (p, firstSuccess max_retries (attemptOk p.id)))).filter
              (fun r => r.2.isSome)).map (fun r => r.1.id)
          failedIds := ((positions.map
            (fun p => (p, firstSuccess max_retries (attemptOk p.id)))).filter
              (fun r => r.2.isSome = false)).map (fun r => r.1.id)
          events := (positions.map
            (fun p => attemptEvents max_retries (attemptOk p.id) p.id)).flatten
              ++ [EmEvent.shutdown]
          triggered := true } := by
      simp [trigger, hp]
    refine ⟨?_, ?_, ?_⟩
    · rw [htr]
      simp [List.count_append, shutdown_count_attemptEvents]
    · rw [htr]
      simp [List.getLast?_concat]
    · intro p hmem hmr h0 h1 h2
      subst hmr
      have hfs : firstSuccess 3 (attemptOk p.id) = some 2 := by
        have hr : List.range 3 = [0, 1, 2] := by decide
        simp [firstSuccess, hr, List.find?, h0, h1, h2]
      constructor
      · rw [htr]
        simp only [List.mem_map, List.mem_filter]
        refine ⟨(p, firstSuccess 3 (attemptOk p.id)), ⟨⟨p, hmem, rfl⟩, ?_⟩, rfl⟩
        rw [hfs]
        rfl
      · rw [htr]
        simp only [List.mem_map, List.mem_filter, List.mem_map]
        rintro ⟨r, ⟨⟨q, hq, hqr⟩, hfail⟩, hid⟩
        rw [← hqr] at hfail hid
        simp only at hfail hid
        rw [hid] at hfail
        rw [hfs] at hfail
        simp at hfail

theorem C8_witness :
    samplePosition.id ∈ (trigger false 3 [samplePosition] thirdAttemptOk).closedIds
    ∧ samplePosition.id ∉ (trigger false 3 [samplePosition] thirdAttemptOk).failedIds
    ∧ (trigger false 3 [samplePosition] thirdAttemptOk).events.count
        EmEvent.shutdown = 1 := by
  obtain ⟨h1, h2, h3⟩ := C8_first_trigger 3 [samplePosition] thirdAttemptOk
  have h := h3 samplePosition (by simp) rfl rfl rfl rfl
  exact ⟨h.1, h.2, h1⟩

/-- C4: close_position submits a spot sell and a perp buy of the stored
quantity under the shared timeout; when the timeout elapses the position
is written back to the registry so the same position_id can be retried,
and when both closing orders succeed the position is removed and the
two order results are returned to the caller. -/
theorem C4_close_position (registry : List (String × Position))
    (position_id : String) (position : Position)
    (sOut pOut : Except String OrderResult) (sr pr : OrderResult)
    (h : dictGet registry position_id = some position) :
    ((closePosition registry position_id true sOut pOut).placed =
      [{ symbol := position.spot_symbol, side := .sell, order_type := .market
         quantity := position.quantity, price := none, category := "spot" },
       { symbol := position.perp_symbol, side := .buy, order_type := .market
         quantity := position.quantity, price := none, category := "linear" }]
    ∧ (closePosition registry position_id true sOut pOut).result =
        .error .deltaHedgeTimeout
    ∧ dictGet (closePosition registry position_id true sOut pOut).registry
        position_id = some position)
    ∧ ((closePosition registry position_id false (.ok sr) (.ok pr)).placed =
      [{ symbol := position.spot_symbol, side := .sell, order_type := .market
         quantity := position.quantity, price := none, category := "spot" },
       { symbol := position.perp_symbol, side := .buy, order_type := .market
         quantity := position.quantity, price := none, category := "linear" }]
    ∧ (closePosition registry position_id false (.ok sr) (.ok pr)).result =
        .ok (sr, pr)
    ∧ dictGet (closePosition registry position_id false (.ok sr) (.ok pr)).registry
        position_id = none) := by
  refine ⟨⟨?_, ?_, ?_⟩, ⟨?_, ?_, ?_⟩⟩ <;>
    simp [closePosition, h, gatherTwo, dictGet_dictSet, dictGet_dictRemove]

theorem C4_witness :
    (closePosition [("pos-1", samplePosition)] "pos-1" false
      (.ok sampleSpotFill) (.ok samplePerpFill)).result =
        .ok (sampleSpotFill, samplePerpFill)
    ∧ dictGet (closePosition [("pos-1", samplePosition)] "pos-1" true
        (.ok sampleSpotFill) (.ok samplePerpFill)).registry "pos-1" =
        some samplePosition := by
  have h := C4_close_position [("pos-1", samplePosition)] "pos-1" samplePosition
    (.ok sampleSpotFill) (.ok samplePerpFill) sampleSpotFill samplePerpFill
    (by simp [dictGet])
  exact ⟨h.2.2.1, h.1.2.2⟩

/-- C10: close_position restores the registry entry only on timeout: a
non-timeout failure of a closing order propagates with the position
already removed (not restored), and an unknown position_id fails with
KeyError before any order is placed, leaving the registry unchanged. -/
theorem C10_close_position_errors (registry : List (String × Position))
    (position_id : String) (position : Position)
    (timedOut : Bool) (sOut pOut : Except String OrderResult) (e : String) :
    (dictGet registry position_id = none →
      closePosition registry position_id timedOut sOut pOut =
        { placed := [], result := .error .keyError, registry := registry })
    ∧ (dictGet registry position_id = some position →
        gatherTwo sOut pOut = .error e →
        (closePosition registry position_id false sOut pOut).result =
          .error (.legFailure e)
        ∧ (closePosition registry position_id false sOut pOut).registry =
            dictRemove registry position_id
        ∧ dictGet (closePosition registry position_id false sOut pOut).registry
            position_id = none) := by
  constructor
  · intro h
    simp [closePosition, h]
  · intro h hg
    refine ⟨?_, ?_, ?_⟩ <;>
      simp [closePosition, h, hg, dictGet_dictRemove]

theorem C10_witness :
    closePosition [] "missing" false (.ok sampleSpotFill) (.ok samplePerpFill) =
      { placed := [], result := .error .keyError, registry := [] }
    ∧ (closePosition [("pos-1", samplePosition)] "pos-1" false
        (.ok sampleSpotFill) (.error "exchange rejected")).result =
        .error (.legFailure "exchange rejected")
    ∧ dictGet (closePosition [("pos-1", samplePosition)] "pos-1" false
        (.ok sampleSpotFill) (.error "exchange rejected")).registry "pos-1" =
        none := by
  have h1 := (C10_close_position_errors [] "missing" samplePosition false
    (.ok sampleSpotFill) (.ok samplePerpFill) "").1 (by simp [dictGet])
  have h2 := (C10_close_position_errors [("pos-1", samplePosition)] "pos-1"
    samplePosition false (.ok sampleSpotFill) (.error "exchange rejected")
    "exchange rejected").2 (by simp [dictGet]) rfl
  exact ⟨h1, h2.1, h2.2.2⟩

/-- Gather-error path of open_position: with a resolved price, a computed
quantity and a leg failure, the call raises deltaHedgeError, leaves the
registry unchanged, and submits exactly the two entry orders with no
rollback order, since the except-handler sees both result locals still
None. -/
theorem openPosition_leg_exception (s : TradingSettings)
    (spot_symbol perp_symbol : String) (available_balance : ℚ)
    (si pi : InstrumentInfo) (price : ℚ) (spotPrice : Option ℚ)
    (sOut pOut : Except String OrderResult) (exc newId : String) (now : ℚ)
    (registry : List (String × Position)) (quantity : ℚ)
    (hq : calculate_matching_quantity s price available_balance si pi =
      some quantity)
    (hg : gatherTwo sOut pOut = .error exc) :
    openPosition s spot_symbol perp_symbol available_balance si pi
      (some price) spotPrice false sOut pOut newId now registry =
      { placed := [{ symbol := spot_symbol, side := .buy, order_type := .market
                     quantity := quantity, price := none, category := "spot" },
                   { symbol := perp_symbol, side := .sell, order_type := .market
                     quantity := quantity, price := none, category := "linear" }]
        result := .error (.deltaHedgeError exc)
        registry := registry } := by
  unfold openPosition
  simp only [hq, hg]
  simp

/-- C1: when the perp leg raises after the spot leg has already returned a
fill, open_position fails with the hedge-error condition but submits no
reversing order for the filled spot leg: the gather results are lost
when the exception propagates, so the except-handler sees both result
locals still None and both rollback branches are unreachable.  The
orders submitted are exactly the two entry orders. -/
theorem C1_no_rollback_order :
    (openPosition defaultTradingSettings "BTC/USDT" "BTC/USDT:USDT" 10000
      sampleSpotInstrument samplePerpInstrument (some 50000) none false
      (.ok sampleSpotFill) (.error "perp leg rejected") "pos-1" 0 []).result =
        .error (.deltaHedgeError "perp leg rejected")
    ∧ (openPosition defaultTradingSettings "BTC/USDT" "BTC/USDT:USDT" 10000
        sampleSpotInstrument samplePerpInstrument (some 50000) none false
        (.ok sampleSpotFill) (.error "perp leg rejected") "pos-1" 0 []).placed =
      [{ symbol := "BTC/USDT", side := .buy, order_type := .market
         quantity := 1/50, price := none, category := "spot" },
       { symbol := "BTC/USDT:USDT", side := .sell, order_type := .market
         quantity := 1/50, price := none, category := "linear" }]
    ∧ (openPosition defaultTradingSettings "BTC/USDT" "BTC/USDT:USDT" 10000
        sampleSpotInstrument samplePerpInstrument (some 50000) none false
        (.ok sampleSpotFill) (.error "perp leg rejected") "pos-1" 0 []).registry =
      [] := by
  have hq : calculate_matching_quantity defaultTradingSettings 50000 10000
      sampleSpotInstrument samplePerpInstrument = some (1/50) := by
    norm_num [calculate_matching_quantity, round_to_step, decTrunc,
      defaultTradingSettings, sampleSpotInstrument, samplePerpInstrument,
      min_def, max_def]
  have h := openPosition_leg_exception defaultTradingSettings
    ("BTC/USDT") ("BTC/USDT:USDT") 10000 sampleSpotInstrument
    samplePerpInstrument 50000 none (.ok sampleSpotFill)
    (.error "perp leg rejected") ("perp leg rejected") ("pos-1") 0 [] (1/50)
    hq rfl
  rw [h]
  exact ⟨rfl, rfl, rfl⟩

theorem openPosition_no_price (s : TradingSettings)
    (spot_symbol perp_symbol : String) (available_balance : ℚ)
    (si pi : InstrumentInfo) (perpPrice spotPrice : Option ℚ)
    (timedOut : Bool) (sOut pOut : Except String OrderResult)
    (newId : String) (now : ℚ) (registry : List (String × Position))
    (hpr : (match perpPrice with | some p => some p | none => spotPrice) =
      (none : Option ℚ)) :
    openPosition s spot_symbol perp_symbol available_balance si pi
      perpPrice spotPrice timedOut sOut pOut newId now registry =
      { placed := [], result := .error .priceUnavailable, registry := registry } := by
  unfold openPosition
  simp only [hpr]

theorem openPosition_insufficient (s : TradingSettings)
    (spot_symbol perp_symbol : String) (available_balance : ℚ)
    (si pi : InstrumentInfo) (perpPrice spotPrice : Option ℚ) (price : ℚ)
    (timedOut : Bool) (sOut pOut : Except String OrderResult)
    (newId : String) (now : ℚ) (registry : List (String × Position))
    (hpr : (match perpPrice with | some p => some p | none => spotPrice) =
      some price)
    (hq : calculate_matching_quantity s price available_balance si pi = none) :
    openPosition s spot_symbol perp_symbol available_balance si pi
      perpPrice spotPrice timedOut sOut pOut newId now registry =
      { placed := [], result := .error .insufficientSize, registry := registry } := by
  unfold openPosition
  simp only [hpr, hq]

theorem openPosition_drift_rollback (s : TradingSettings)
    (spot_symbol perp_symbol : String) (available_balance : ℚ)
    (si pi : InstrumentInfo) (perpPrice spotPrice : Option ℚ) (price : ℚ)
    (sr pr : OrderResult) (newId : String) (now : ℚ)
    (registry : List (String × Position)) (quantity : ℚ)
    (hpr : (match perpPrice with | some p => some p | none => spotPrice) =
      some price)
    (hq : calculate_matching_quantity s price available_balance si pi =
      some quantity)
    (hW : (validate s sr.filled_qty pr.filled_qty "" now).is_within_tolerance =
      false) :
    openPosition s spot_symbol perp_symbol available_balance si pi
      perpPrice spotPrice false (.ok sr) (.ok pr) newId now registry =
      { placed := [{ symbol := spot_symbol, side := .buy, order_type := .market
                     quantity := quantity, price := none, category := "spot" },
                   { symbol := perp_symbol, side := .sell, order_type := .market
                     quantity := quantity, price := none, category := "linear" },
                   { symbol := spot_symbol, side := .sell, order_type := .market
                     quantity := sr.filled_qty, price := none, category := "spot" },
                   { symbol := perp_symbol, side := .buy, order_type := .market
                     quantity := pr.filled_qty, price := none, category := "linear" }]
        result := .error .deltaDriftExceeded
        registry := registry } := by
  unfold openPosition
  simp only [hpr, hq, gatherTwo]
  simp [hW]

theorem openPosition_commit (s : TradingSettings)
    (spot_symbol perp_symbol : String) (available_balance : ℚ)
    (si pi : InstrumentInfo) (perpPrice spotPrice : Option ℚ) (price : ℚ)
    (sr pr : OrderResult) (newId : String) (now : ℚ)
    (registry : List (String × Position)) (quantity : ℚ)
    (hpr : (match perpPrice with | some p => some p | none => spotPrice) =
      some price)
    (hq : calculate_matching_quantity s price available_balance si pi =
      some quantity)
    (hW : (validate s sr.filled_qty pr.filled_qty "" now).is_within_tolerance =
      true) :
    openPosition s spot_symbol perp_symbol available_balance si pi
      perpPrice spotPrice false (.ok sr) (.ok pr) newId now registry =
      { placed := [{ symbol := spot_symbol, side := .buy, order_type := .market
                     quantity := quantity, price := none, category := "spot" },
                   { symbol := perp_symbol, side := .sell, order_type := .market
                     quantity := quantity, price := none, category := "linear" }]
        result := .ok { id := newId, spot_symbol := spot_symbol
                        perp_symbol := perp_symbol, side := .short
                        quantity := sr.filled_qty
                        spot_entry_price := sr.filled_price
                        perp_entry_price := pr.filled_price
                        spot_order_id := sr.order_id
                        perp_order_id := pr.order_id
                        opened_at := now
                        entry_fee_total := sr.fee + pr.fee }
        registry := dictSet registry newId
          { id := newId, spot_symbol := spot_symbol
            perp_symbol := perp_symbol, side := .short
            quantity := sr.filled_qty
            spot_entry_price := sr.filled_price
            perp_entry_price := pr.filled_price
            spot_order_id := sr.order_id
            perp_order_id := pr.order_id
            opened_at := now
            entry_fee_total := sr.fee + pr.fee } } := by
  unfold openPosition
  simp only [hpr, hq, gatherTwo]
  simp [hW]

/-- C3 counterexample: an executor outcome in which both legs report a
filled quantity of zero passes the delta check (drift is defined as zero
when both quantities are zero) and reaches the commit step, so a
Position with quantity 0 is created and stored in the registry. -/
theorem C3_zero_quantity_committed :
    (openPosition defaultTradingSettings "BTC/USDT" "BTC/USDT:USDT" 10000
      sampleSpotInstrument samplePerpInstrument (some 50000) none false
      (.ok zeroSpotFill) (.ok zeroPerpFill) "pos-0" 0 []).result =
        .ok { id := "pos-0", spot_symbol := "BTC/USDT"
              perp_symbol := "BTC/USDT:USDT", side := .short
              quantity := 0, spot_entry_price := 50000
              perp_entry_price := 50000, spot_order_id := "spot-0"
              perp_order_id := "perp-0", opened_at := 0
              entry_fee_total := 0 }
    ∧ ((openPosition defaultTradingSettings "BTC/USDT" "BTC/USDT:USDT" 10000
        sampleSpotInstrument samplePerpInstrument (some 50000) none false
        (.ok zeroSpotFill) (.ok zeroPerpFill) "pos-0" 0 []).registry.map
          (fun e => e.2.quantity)) = [0] := by
  have hq : calculate_matching_quantity defaultTradingSettings 50000 10000
      sampleSpotInstrument samplePerpInstrument = some (1/50) := by
    norm_num [calculate_matching_quantity, round_to_step, decTrunc,
      defaultTradingSettings, sampleSpotInstrument, samplePerpInstrument,
      min_def, max_def]
  have hW : (validate defaultTradingSettings zeroSpotFill.filled_qty
      zeroPerpFill.filled_qty "" 0).is_within_tolerance = true := by
    norm_num [validate, zeroSpotFill, zeroPerpFill, defaultTradingSettings,
      max_def, decide_eq_true_eq]
  rw [openPosition_commit defaultTradingSettings ("BTC/USDT") ("BTC/USDT:USDT")
    10000 sampleSpotInstrument samplePerpInstrument (some 50000) none 50000
    zeroSpotFill zeroPerpFill ("pos-0") 0 [] (1/50) rfl hq hW]
  norm_num [dictSet, zeroSpotFill, zeroPerpFill]

/-- C3 amended: every Position committed and registered by a successful
open_position carries the spot fill quantity and the two result order
ids verbatim; whenever the configured drift tolerance is below one, the
fill quantities are non-negative and not both zero, and both executor
results carry non-empty order ids, the stored position has a strictly
positive quantity and two non-empty leg identifiers.  A both-legs-zero
fill outcome, however, reaches the commit step and stores a
zero-quantity position (C3_zero_quantity_committed). -/
theorem C3_committed_position_invariant (s : TradingSettings)
    (spot_symbol perp_symbol : String) (available_balance : ℚ)
    (si pi : InstrumentInfo) (perpPrice spotPrice : Option ℚ)
    (sr pr : OrderResult) (newId : String) (now : ℚ)
    (registry : List (String × Position)) (pos : Position)
    (htol : s.delta_drift_tolerance < 1)
    (hsq : 0 ≤ sr.filled_qty) (hpq : 0 ≤ pr.filled_qty)
    (hnz : ¬(sr.filled_qty = 0 ∧ pr.filled_qty = 0))
    (hsid : sr.order_id ≠ "") (hpid : pr.order_id ≠ "")
    (hok : (openPosition s spot_symbol perp_symbol available_balance si pi
      perpPrice spotPrice false (.ok sr) (.ok pr) newId now
      registry).result = .ok pos) :
    0 < pos.quantity ∧ pos.spot_order_id ≠ "" ∧ pos.perp_order_id ≠ ""
    ∧ dictGet (openPosition s spot_symbol perp_symbol available_balance si pi
        perpPrice spotPrice false (.ok sr) (.ok pr) newId now
        registry).registry newId = some pos := by
  rcases hpr : (match perpPrice with | some p => some p | none => spotPrice)
    with _ | price
  · rw [openPosition_no_price s spot_symbol perp_symbol available_balance
      si pi perpPrice spotPrice false (.ok sr) (.ok pr) newId now registry hpr]
      at hok
    simp at hok
  · rcases hqq : calculate_matching_quantity s price available_balance si pi
      with _ | quantity
    · rw [openPosition_insufficient s spot_symbol perp_symbol available_balance
        si pi perpPrice spotPrice price false (.ok sr) (.ok pr) newId now
        registry hpr hqq] at hok
      simp at hok
    · cases hW : (validate s sr.filled_qty pr.filled_qty "" now).is_within_tolerance
      · rw [openPosition_drift_rollback s spot_symbol perp_symbol
          available_balance si pi perpPrice spotPrice price sr pr newId now
          registry quantity hpr hqq hW] at hok
        simp at hok
      · rw [openPosition_commit s spot_symbol perp_symbol available_balance
          si pi perpPrice spotPrice price sr pr newId now registry quantity
          hpr hqq hW] at hok ⊢
        simp only [Except.ok.injEq] at hok
        subst hok
        have hspos : 0 < sr.filled_qty := by
          by_contra hc
          have hs0 : sr.filled_qty = 0 := le_antisymm (not_lt.mp hc) hsq
          have hp0 : pr.filled_qty ≠ 0 := fun h => hnz ⟨hs0, h⟩
          have hppos : 0 < pr.filled_qty :=
            lt_of_le_of_ne hpq (Ne.symm hp0)
          have hd : (validate s sr.filled_qty pr.filled_qty "" now).drift_pct
              ≤ s.delta_drift_tolerance := by
            have := hW
            simp only [validate, decide_eq_true_eq] at this
            simpa [validate] using this
          rw [show (validate s sr.filled_qty pr.filled_qty "" now).drift_pct
              = 1 from ?_] at hd
          · linarith
          · simp only [validate, hs0]
            rw [max_eq_right hppos.le, if_pos hppos]
            rw [zero_sub, abs_neg, abs_of_nonneg hppos.le,
              div_self hppos.ne']
        refine ⟨by simpa using hspos, by simpa using hsid,
          by simpa using hpid, ?_⟩
        simp [dictGet_dictSet]

theorem C3_witness :
    0 < samplePosition.quantity ∧ samplePosition.spot_order_id ≠ ""
    ∧ samplePosition.perp_order_id ≠ ""
    ∧ dictGet (openPosition defaultTradingSettings "BTC/USDT" "BTC/USDT:USDT"
        10000 sampleSpotInstrument samplePerpInstrument (some 50000) none false
        (.ok sampleSpotFill) (.ok samplePerpFill) "pos-1" 0 []).registry
        "pos-1" = some samplePosition := by
  have hq : calculate_matching_quantity defaultTradingSettings 50000 10000
      sampleSpotInstrument samplePerpInstrument = some (1/50) := by
    norm_num [calculate_matching_quantity, round_to_step, decTrunc,
      defaultTradingSettings, sampleSpotInstrument, samplePerpInstrument,
      min_def, max_def]
  have hW : (validate defaultTradingSettings sampleSpotFill.filled_qty
      samplePerpFill.filled_qty "" 0).is_within_tolerance = true := by
    norm_num [validate, sampleSpotFill, samplePerpFill, defaultTradingSettings,
      max_def, decide_eq_true_eq]
  refine C3_committed_position_invariant defaultTradingSettings ("BTC/USDT")
    ("BTC/USDT:USDT") 10000 sampleSpotInstrument samplePerpInstrument
    (some 50000) none sampleSpotFill samplePerpFill ("pos-1") 0 []
    samplePosition (by norm_num [defaultTradingSettings])
    (by norm_num [sampleSpotFill]) (by norm_num [samplePerpFill])
    (by norm_num [sampleSpotFill]) (by simp [sampleSpotFill])
    (by simp [samplePerpFill]) ?_
  rw [openPosition_commit defaultTradingSettings ("BTC/USDT") ("BTC/USDT:USDT")
    10000 sampleSpotInstrument samplePerpInstrument (some 50000) none 50000
    sampleSpotFill samplePerpFill ("pos-1") 0 [] (1/50) rfl hq hW]
  norm_num [samplePosition, sampleSpotFill, samplePerpFill]
